import Mathlib

/-!
Verification of the measurement-processing and mode state machine of the
Scale-1 firmware (src/Program/main/main.ino and src/unnamed/part_001).

Floating-point quantities of the source (grams, EMA coefficients) are
modelled as rationals; `unsigned long` millisecond timestamps are modelled
as naturals with explicit wrap-around subtraction modulo 2^32.
-/

namespace Scale1

/-- Modulus of `unsigned long` on the 32-bit target. -/
def UWORD : Nat := 4294967296

/-- Wrapping subtraction `a - b` of `unsigned long` values, as in the
source expressions `nowTime - lastModePress`, `nowTime - flowStopTimer`. -/
def usub (a b : Nat) : Nat := (a + (UWORD - b % UWORD)) % UWORD

/- Tuning knobs (main.ino lines 44-53, part_001 lines 37-49). -/

/-- `emaBig = 0.4`: ema for large changes. -/
def emaBig : ℚ := 2/5

/-- `emaMed = 0.7`: ema for medium changes. -/
def emaMed : ℚ := 7/10

/-- `emaSma = 0.95`: ema for tiny changes/noise. -/
def emaSma : ℚ := 19/20

/-- `threshold = 0.08`: hysteresis threshold for movement. -/
def threshold : ℚ := 2/25

/-- `zClampPos = 0.2`: positive z clamp value. -/
def zClampPos : ℚ := 1/5

/-- `zClampNeg = 0.3`: negative z clamp value. -/
def zClampNeg : ℚ := 3/10

/-- `timerStartG = 2.0`: gram weight for timer to start. -/
def timerStartG : ℚ := 2

/-- `minFlowT = 800`: ms without flow for timer to stop. -/
def minFlowT : Nat := 800

/-- `minFlowG = 0.2`: gram minimum flow change for timer to stop. -/
def minFlowG : ℚ := 1/5

/-- `debounce = 25`: ms for debounce. -/
def debounce : Nat := 25

/-- C `fabsf`: absolute value. -/
def fabsf (x : ℚ) : ℚ := if x < 0 then -x else x

/-- C `roundf`, as applied to the values in play: round to the nearest
integer, with halves rounded away from zero. -/
def roundf (x : ℚ) : ℤ := if x < 0 then -⌊-x + 1/2⌋ else ⌊x + 1/2⌋

/-- `quantize` (main.ino lines 290-292, part_001 lines 483-485):
`return roundf(g * 10.0f) / 10.0f;`. -/
def quantize (g : ℚ) : ℚ := (roundf (g * 10) : ℚ) / 10

/-- `hysteresis` (main.ino lines 295-301, part_001 lines 488-494).  The
function-local `static float shown_g` is made an explicit argument; the
result is the new `shown_g`, which the source also returns. -/
def hysteresis (read_g shown_g : ℚ) : ℚ :=
  if fabsf (read_g - shown_g) ≥ threshold then read_g else shown_g

/-- `varZeroClamp` (main.ino lines 304-309, part_001 lines 497-502). -/
def varZeroClamp (g : ℚ) : ℚ :=
  if g < 0 ∧ fabsf g < zClampNeg then 0
  else if g > 0 ∧ fabsf g < zClampPos then 0
  else g

/-- The adaptive-EMA block of `loop` (main.ino lines 176-188, part_001
lines 272-285), acting on the raw sample `grams` and the running filter
value `gFilt`; returns the new `gFilt`. -/
def emaStep (grams gFilt : ℚ) : ℚ :=
  let err := fabsf (grams - gFilt)
  if err > 1 then grams
  else
    let ema := if err > 3/10 then emaBig else if err > 1/10 then emaMed else emaSma
    ema * gFilt + (1 - ema) * grams

/-- The timer-engine state threaded through `updatePour` / `updateShot`
(part_001): `running`, global `tStart`, displayed `time`, `startOnce`
(the arming flag) and `flowStopTimer` (0 = unset). -/
structure TimerSt where
  running : Bool
  tStart : Nat
  time : ℚ
  startOnce : Bool
  flowStopTimer : Nat
deriving DecidableEq, Repr

/-- The auto-start `if` of `updatePour` (part_001 lines 323-327):
`if (running == false && startOnce == true && gFilt > timerStartG)`. -/
def pourStart (gFilt : ℚ) (nowTime : Nat) (s : TimerSt) : TimerSt :=
  if s.running = false ∧ s.startOnce = true ∧ gFilt > timerStartG then
    { s with running := true, tStart := nowTime, time := 0 }
  else s

/-- The elapsed-time update of `updatePour` (part_001 lines 329-331):
`if (running == true) time = nowTime - tStart;`. -/
def pourTime (nowTime : Nat) (s : TimerSt) : TimerSt :=
  if s.running = true then { s with time := (usub nowTime s.tStart : ℚ) } else s

/-- `updatePour` (part_001 lines 322-332): its two statements in source
order. -/
def updatePour (gFilt : ℚ) (nowTime : Nat) (s : TimerSt) : TimerSt :=
  pourTime nowTime (pourStart gFilt nowTime s)

/-- The auto-start `if` of `updateShot` (part_001 lines 335-341). -/
def shotStart (gFilt : ℚ) (nowTime : Nat) (s : TimerSt) : TimerSt :=
  if s.running = false ∧ s.startOnce = true ∧ gFilt > timerStartG then
    { s with running := true, tStart := nowTime, time := 0, startOnce := false,
             flowStopTimer := 0 }
  else s

/-- The auto-stop checker of `updateShot` (part_001 lines 343-358; the
same block appears inline in main.ino lines 214-229). -/
def shotAutoStop (gFilt prevGFilt : ℚ) (nowTime : Nat) (s : TimerSt) : TimerSt :=
  if s.running = true then
    (if fabsf (gFilt - prevGFilt) < minFlowG then
      (if s.flowStopTimer = 0 then { s with flowStopTimer := nowTime }
       else if usub nowTime s.flowStopTimer > minFlowT then
         { s with running := false, startOnce := false, flowStopTimer := 0 }
       else s)
     else { s with flowStopTimer := 0 })
  else s

/-- The display-time calculator of `updateShot` (part_001 lines 360-363):
`if (running == true) time = (nowTime - tStart) / 1000.0f;`. -/
def shotTime (nowTime : Nat) (s : TimerSt) : TimerSt :=
  if s.running = true then { s with time := (usub nowTime s.tStart : ℚ) / 1000 } else s

/-- The re-arm `if` of `updateShot` (part_001 lines 365-368):
`if (!running && gFilt < 1.0f) startOnce = true;`. -/
def shotRearm (gFilt : ℚ) (s : TimerSt) : TimerSt :=
  if s.running = false ∧ gFilt < 1 then { s with startOnce := true } else s

/-- `updateShot` (part_001 lines 334-369; inline in main.ino lines
203-239): its four blocks in source order. -/
def updateShot (gFilt prevGFilt : ℚ) (nowTime : Nat) (s : TimerSt) : TimerSt :=
  shotRearm gFilt (shotTime nowTime (shotAutoStop gFilt prevGFilt nowTime
    (shotStart gFilt nowTime s)))

/-- The scale state visible to the `tare` routine: the filter value
`gFilt`, the hysteresis-held `shown_g` (a `static` local of `hysteresis`,
inaccessible to `tare`), and the timer state. -/
structure ScaleState where
  gFilt : ℚ
  shown_g : ℚ
  timer : TimerSt
deriving DecidableEq, Repr

/-- The body of the accepted branch of `tare` (main.ino lines 320-328,
part_001 lines 513-521): the assignments performed on a debounced press. -/
def tareReset (s : ScaleState) : ScaleState :=
  { gFilt := 0,
    shown_g := s.shown_g,
    timer := { s.timer with running := false, time := 0, flowStopTimer := 0, startOnce := true } }

/-- The `static` locals of `tare`: `lastZero` and `lastState`
(`true` = HIGH = not pressed, the button being active-low). -/
structure TareBtnSt where
  lastZero : Nat
  lastState : Bool
deriving DecidableEq, Repr

/-- `tare` (main.ino lines 311-333, part_001 lines 504-526): on a falling
edge that passes the debounce window, perform `tareReset` and record the
press time. -/
def tare (nowTime : Nat) (state : Bool) (btn : TareBtnSt) (s : ScaleState) :
    ScaleState × TareBtnSt :=
  if btn.lastState = true ∧ state = false ∧ usub nowTime btn.lastZero > debounce then
    (tareReset s, { lastZero := nowTime, lastState := state })
  else
    (s, { btn with lastState := state })

/-- The `Mode` enum of part_001 lines 72-78: POUR = 0, SHOT = 1,
KITCHEN = 2, SLEEP = 3, MODE_COUNT = 4. -/
inductive Mode where
  | pour
  | shot
  | kitchen
  | sleep
deriving DecidableEq, Repr

/-- Numeric value of each enumerator. -/
def Mode.idx : Mode → Nat
  | .pour => 0
  | .shot => 1
  | .kitchen => 2
  | .sleep => 3

/-- `MODE_COUNT = 4`. -/
def MODE_COUNT : Nat := 4

/-- The cast `(Mode)n` for the values produced by `% MODE_COUNT`. -/
def Mode.fromNat : Nat → Mode
  | 0 => .pour
  | 1 => .shot
  | 2 => .kitchen
  | _ => .sleep

/-- The mode-cycle action of the FSM mode switcher (part_001 lines
228-231): `mode = (Mode)((mode + 1) % MODE_COUNT); if (mode == MODE_SLEEP)
mode = MODE_POUR;`. -/
def cycleMode (m : Mode) : Mode :=
  let m1 := Mode.fromNat ((m.idx + 1) % MODE_COUNT)
  if m1 = Mode.sleep then Mode.pour else m1

/-- The spec's wording of the cycle, for comparison with `cycleMode`:
advance to `(current + 1) mod modeCount`; if the landing mode is Sleep,
advance one more step. -/
def cycleModeSpec (m : Mode) : Mode :=
  let m1 := Mode.fromNat ((m.idx + 1) % MODE_COUNT)
  if m1 = Mode.sleep then Mode.fromNat ((m1.idx + 1) % MODE_COUNT) else m1

/-- `convertTime` (part_001 lines 540-544), returning
`(minutes, seconds, milliseconds)`:
`milliseconds = (time % 1000) / 100; seconds = time / 1000 % 60;
minutes = time / 60000;`. -/
def convertTime (time : Nat) : Nat × Nat × Nat :=
  (time / 60000, time / 1000 % 60, (time % 1000) / 100)

/- Helper lemmas. -/

/-- `fabsf` is the absolute value. -/
theorem fabsf_eq_abs (x : ℚ) : fabsf x = |x| := by
  unfold fabsf
  split_ifs with h
  · exact (abs_of_neg h).symm
  · exact (abs_of_nonneg (not_lt.mp h)).symm

/-- Wrapping subtraction agrees with truncated subtraction below the wrap. -/
theorem usub_eq_sub {a b : Nat} (hba : b ≤ a) (ha : a < UWORD) :
    usub a b = a - b := by
  have hb : b % UWORD = b := Nat.mod_eq_of_lt (lt_of_le_of_lt hba ha)
  unfold usub
  rw [hb]
  have h1 : a + (UWORD - b) = (a - b) + UWORD := by omega
  rw [h1, Nat.add_mod_right]
  exact Nat.mod_eq_of_lt (by omega)

/-- `usub n n = 0` for every `n`. -/
theorem usub_self (n : Nat) : usub n n = 0 := by
  unfold usub
  have h1 : n % UWORD ≤ n := Nat.mod_le n UWORD
  have h2 : n % UWORD < UWORD := Nat.mod_lt n (by unfold UWORD; omega)
  have h3 : n + (UWORD - n % UWORD) = (n - n % UWORD) + UWORD := by omega
  rw [h3, Nat.add_mod_right]
  have h4 : n - n % UWORD = UWORD * (n / UWORD) := by
    have := Nat.div_add_mod n UWORD
    omega
  rw [h4]
  exact Nat.mul_mod_right UWORD (n / UWORD)

/-- `roundf` fixes integers. -/
theorem roundf_intCast (n : ℤ) : roundf (n : ℚ) = n := by
  unfold roundf
  have hhalf : ⌊(1 : ℚ)/2⌋ = 0 := by norm_num
  split_ifs with h
  · have : -(n : ℚ) = ((-n : ℤ) : ℚ) := by push_cast; ring
    rw [this, Int.floor_int_add (-n) ((1:ℚ)/2), hhalf]
    omega
  · rw [Int.floor_int_add n ((1:ℚ)/2), hhalf]
    omega

/- Claim theorems. -/

/-- Claim C2: the hysteresis stage updates `shown_g` to the new filtered
value exactly when `|read_g - shown_g| >= 0.08`; when the difference is
strictly below 0.08, `shown_g` is returned unchanged. -/
theorem c2_hysteresis_gate (read_g shown_g : ℚ) :
    (|read_g - shown_g| ≥ 2/25 → hysteresis read_g shown_g = read_g) ∧
    (|read_g - shown_g| < 2/25 → hysteresis read_g shown_g = shown_g) := by
  constructor
  · intro h
    simp only [hysteresis, threshold, fabsf_eq_abs]
    rw [if_pos h]
  · intro h
    simp only [hysteresis, threshold, fabsf_eq_abs]
    rw [if_neg (not_le.mpr h)]

/-- Witness for C2 at `read_g = 1`, `shown_g = 0` (update fires) and at
`read_g = 1/100`, `shown_g = 0` (no update). -/
theorem c2_hysteresis_gate_witness :
    (|(1 : ℚ) - 0| ≥ 2/25 ∧ hysteresis 1 0 = 1) ∧
    (|(1 : ℚ)/100 - 0| < 2/25 ∧ hysteresis (1/100) 0 = 0) :=
  ⟨⟨by norm_num, (c2_hysteresis_gate 1 0).1 (by norm_num)⟩,
   ⟨by rw [← fabsf_eq_abs]; norm_num [fabsf],
    (c2_hysteresis_gate (1/100) 0).2 (by rw [← fabsf_eq_abs]; norm_num [fabsf])⟩⟩

/-- Claim C1: each tick of the adaptive-EMA block with `err = |grams - gFilt|`
snaps `gFilt` to `grams` when `err > 1.0`; otherwise it applies
`gFilt = coeff*gFilt + (1-coeff)*grams` with `coeff = 0.4` for `err > 0.3`,
`coeff = 0.7` for `0.1 < err <= 0.3` and `coeff = 0.95` otherwise; in
particular a raw jump of +50 g from a filtered baseline of 0 g sets the
filter to 50 g in that single tick. -/
theorem c1_adaptive_ema (grams gFilt : ℚ) :
    (|grams - gFilt| > 1 → emaStep grams gFilt = grams) ∧
    (|grams - gFilt| ≤ 1 → |grams - gFilt| > 3/10 →
      emaStep grams gFilt = 2/5 * gFilt + (1 - 2/5) * grams) ∧
    (|grams - gFilt| ≤ 3/10 → |grams - gFilt| > 1/10 →
      emaStep grams gFilt = 7/10 * gFilt + (1 - 7/10) * grams) ∧
    (|grams - gFilt| ≤ 1/10 →
      emaStep grams gFilt = 19/20 * gFilt + (1 - 19/20) * grams) ∧
    emaStep 50 0 = 50 := by
  refine ⟨?_, ?_, ?_, ?_, ?_⟩
  · intro h
    simp only [emaStep, fabsf_eq_abs]
    rw [if_pos h]
  · intro h1 h2
    simp only [emaStep, fabsf_eq_abs, emaBig]
    rw [if_neg (not_lt.mpr h1), if_pos h2]
  · intro h1 h2
    simp only [emaStep, fabsf_eq_abs, emaMed]
    rw [if_neg (not_lt.mpr (le_trans h1 (by norm_num))),
        if_neg (not_lt.mpr h1), if_pos h2]
  · intro h1
    simp only [emaStep, fabsf_eq_abs, emaSma]
    rw [if_neg (not_lt.mpr (le_trans h1 (by norm_num))),
        if_neg (not_lt.mpr (le_trans h1 (by norm_num))),
        if_neg (not_lt.mpr h1)]
  · norm_num [emaStep, fabsf]

/-- Witness for C1: a medium-band input (`err = 1/2`) and the 50 g snap. -/
theorem c1_adaptive_ema_witness :
    |(1 : ℚ)/2 - 0| ≤ 1 ∧ |(1 : ℚ)/2 - 0| > 3/10 ∧
    emaStep (1/2) 0 = 2/5 * 0 + (1 - 2/5) * (1/2) ∧ emaStep 50 0 = 50 :=
  ⟨by rw [← fabsf_eq_abs]; norm_num [fabsf],
   by rw [← fabsf_eq_abs]; norm_num [fabsf],
   (c1_adaptive_ema (1/2) 0).2.1 (by rw [← fabsf_eq_abs]; norm_num [fabsf])
     (by rw [← fabsf_eq_abs]; norm_num [fabsf]),
   (c1_adaptive_ema 50 0).2.2.2.2⟩

/-- Counterexample to claim C5 as stated: `0.25` lies strictly between
`-0.3` and `0.3` yet `varZeroClamp` passes it through unchanged, because
the positive clamp bound is `0.2`, not `0.3`. -/
theorem c5_zero_clamp_cex :
    ((-3 : ℚ)/10 < 1/4 ∧ (1/4 : ℚ) < 3/10) ∧ varZeroClamp (1/4) ≠ 0 := by
  norm_num [varZeroClamp, fabsf, zClampNeg, zClampPos]

/-- Claim C5 (amended): every input strictly between `-0.3` and `+0.2` is
clamped to exactly `0.0`; the inputs `0.4` and `-0.4` pass through
unchanged. -/
theorem c5_zero_clamp (g : ℚ) :
    (-(3/10) < g → g < 1/5 → varZeroClamp g = 0) ∧
    varZeroClamp (2/5) = 2/5 ∧ varZeroClamp (-(2/5)) = -(2/5) := by
  refine ⟨?_, ?_, ?_⟩
  · intro h1 h2
    simp only [varZeroClamp, fabsf_eq_abs, zClampNeg, zClampPos]
    split_ifs with hA hB
    · rfl
    · rfl
    · rcases lt_trichotomy g 0 with hg | hg | hg
      · exact absurd ⟨hg, by rw [abs_of_neg hg]; linarith⟩ hA
      · exact hg
      · exact absurd ⟨hg, by rw [abs_of_pos hg]; linarith⟩ hB
  · norm_num [varZeroClamp, fabsf, zClampNeg, zClampPos]
  · norm_num [varZeroClamp, fabsf, zClampNeg, zClampPos]

/-- Witness for C5 (amended) at `g = 1/10`. -/
theorem c5_zero_clamp_witness :
    (-(3/10) : ℚ) < 1/10 ∧ (1/10 : ℚ) < 1/5 ∧ varZeroClamp (1/10) = 0 :=
  ⟨by norm_num, by norm_num,
   (c5_zero_clamp (1/10)).1 (by norm_num) (by norm_num)⟩

/-- Claim C7: a debounced mode-button press advances the mode to
`(current + 1) mod MODE_COUNT` with a skip over Sleep (the code realises
the skip as `mode = MODE_POUR`, which coincides with advancing one more
step since Sleep is last); cycling never lands on Sleep, and cycling from
Kitchen (the mode immediately preceding Sleep) lands on the mode
immediately after Sleep, namely Pour. -/
theorem c7_mode_cycle (m : Mode) :
    cycleMode m = cycleModeSpec m ∧ cycleMode m ≠ Mode.sleep ∧
    cycleMode Mode.kitchen = Mode.fromNat ((Mode.sleep.idx + 1) % MODE_COUNT) := by
  cases m <;> decide

/-- Claim C3: in Shot mode, on a tick with `running = true` and
`deltaG = gFilt - prevGFilt`: if `|deltaG| >= 0.2` the stall timer is
cleared to unset and the timer keeps running; if `|deltaG| < 0.2` the
stall timer is started when unset and continued while the stall has
lasted at most 800 ms; once the stall has persisted strictly longer than
800 ms, `running` becomes false and the stall timer is reset to unset;
and a stopped, disarmed timer stays stopped (the stop fires only once
per stall). -/
theorem c3_shot_auto_stop (gFilt prevGFilt : ℚ) (nowTime : Nat) (s : TimerSt) :
    (s.running = true → |gFilt - prevGFilt| ≥ 1/5 →
      (updateShot gFilt prevGFilt nowTime s).flowStopTimer = 0 ∧
      (updateShot gFilt prevGFilt nowTime s).running = true) ∧
    (s.running = true → |gFilt - prevGFilt| < 1/5 → s.flowStopTimer = 0 →
      (updateShot gFilt prevGFilt nowTime s).flowStopTimer = nowTime ∧
      (updateShot gFilt prevGFilt nowTime s).running = true) ∧
    (s.running = true → |gFilt - prevGFilt| < 1/5 → s.flowStopTimer ≠ 0 →
      s.flowStopTimer ≤ nowTime → nowTime < UWORD → nowTime - s.flowStopTimer ≤ 800 →
      (updateShot gFilt prevGFilt nowTime s).flowStopTimer = s.flowStopTimer ∧
      (updateShot gFilt prevGFilt nowTime s).running = true) ∧
    (s.running = true → |gFilt - prevGFilt| < 1/5 → s.flowStopTimer ≠ 0 →
      s.flowStopTimer ≤ nowTime → nowTime < UWORD → 800 < nowTime - s.flowStopTimer →
      (updateShot gFilt prevGFilt nowTime s).running = false ∧
      (updateShot gFilt prevGFilt nowTime s).flowStopTimer = 0) ∧
    (s.running = false → s.startOnce = false →
      (updateShot gFilt prevGFilt nowTime s).running = false) := by
  refine ⟨?_, ?_, ?_, ?_, ?_⟩
  · intro hrun h2
    have e1 : shotStart gFilt nowTime s = s := by simp [shotStart, hrun]
    have hd : ¬(fabsf (gFilt - prevGFilt) < minFlowG) := by
      simp only [fabsf_eq_abs, minFlowG]
      exact not_lt.mpr h2
    have e2 : shotAutoStop gFilt prevGFilt nowTime s = { s with flowStopTimer := 0 } := by
      unfold shotAutoStop
      rw [if_pos hrun, if_neg hd]
    simp [updateShot, e1, e2, shotTime, shotRearm, hrun]
  · intro hrun h2 h3
    have e1 : shotStart gFilt nowTime s = s := by simp [shotStart, hrun]
    have hd : fabsf (gFilt - prevGFilt) < minFlowG := by
      simp only [fabsf_eq_abs, minFlowG]
      exact h2
    have e2 : shotAutoStop gFilt prevGFilt nowTime s =
        { s with flowStopTimer := nowTime } := by
      unfold shotAutoStop
      rw [if_pos hrun, if_pos hd, if_pos h3]
    simp [updateShot, e1, e2, shotTime, shotRearm, hrun]
  · intro hrun h2 h3 h4 h5 h6
    have e1 : shotStart gFilt nowTime s = s := by simp [shotStart, hrun]
    have hd : fabsf (gFilt - prevGFilt) < minFlowG := by
      simp only [fabsf_eq_abs, minFlowG]
      exact h2
    have hu : usub nowTime s.flowStopTimer = nowTime - s.flowStopTimer :=
      usub_eq_sub h4 h5
    have hnot : ¬(usub nowTime s.flowStopTimer > minFlowT) := by
      simp only [minFlowT, hu]
      omega
    have e2 : shotAutoStop gFilt prevGFilt nowTime s = s := by
      unfold shotAutoStop
      rw [if_pos hrun, if_pos hd, if_neg h3, if_neg hnot]
    simp [updateShot, e1, e2, shotTime, shotRearm, hrun]
  · intro hrun h2 h3 h4 h5 h6
    have e1 : shotStart gFilt nowTime s = s := by simp [shotStart, hrun]
    have hd : fabsf (gFilt - prevGFilt) < minFlowG := by
      simp only [fabsf_eq_abs, minFlowG]
      exact h2
    have hu : usub nowTime s.flowStopTimer = nowTime - s.flowStopTimer :=
      usub_eq_sub h4 h5
    have hgt : usub nowTime s.flowStopTimer > minFlowT := by
      simp only [minFlowT, hu]
      omega
    have e2 : shotAutoStop gFilt prevGFilt nowTime s =
        { s with running := false, startOnce := false, flowStopTimer := 0 } := by
      unfold shotAutoStop
      rw [if_pos hrun, if_pos hd, if_neg h3, if_pos hgt]
    simp [updateShot, e1, e2, shotTime, shotRearm]
    split_ifs <;> simp
  · intro h1 h2
    have e1 : shotStart gFilt nowTime s = s := by simp [shotStart, h2]
    have e2 : shotAutoStop gFilt prevGFilt nowTime s = s := by
      simp [shotAutoStop, h1]
    simp [updateShot, e1, e2, shotTime, shotRearm, h1]
    split_ifs <;> simp [h1]

/-- Witness for C3: a stall that started at 50 ms, observed at 900 ms
(850 ms > 800 ms of stall), stops the timer and resets the stall timer. -/
theorem c3_shot_auto_stop_witness :
    (⟨true, 0, 0, false, 50⟩ : TimerSt).running = true ∧
    |(10 : ℚ) - 10| < 1/5 ∧ (50 : Nat) ≠ 0 ∧ 50 ≤ 900 ∧ 900 < UWORD ∧
    800 < 900 - 50 ∧
    (updateShot 10 10 900 ⟨true, 0, 0, false, 50⟩).running = false ∧
    (updateShot 10 10 900 ⟨true, 0, 0, false, 50⟩).flowStopTimer = 0 := by
  refine ⟨rfl, by rw [← fabsf_eq_abs]; norm_num [fabsf], by norm_num, by norm_num,
    by norm_num [UWORD], by norm_num, ?_, ?_⟩
  · exact ((c3_shot_auto_stop 10 10 900 ⟨true, 0, 0, false, 50⟩).2.2.2.1 rfl
      (by rw [← fabsf_eq_abs]; norm_num [fabsf]) (by norm_num) (by norm_num)
      (by norm_num [UWORD]) (by norm_num)).1
  · exact ((c3_shot_auto_stop 10 10 900 ⟨true, 0, 0, false, 50⟩).2.2.2.1 rfl
      (by rw [← fabsf_eq_abs]; norm_num [fabsf]) (by norm_num) (by norm_num)
      (by norm_num [UWORD]) (by norm_num)).2

/-- Counterexample to claim C4 as stated: on a starting Pour-mode tick
(`running = false`, `startOnce = true`, `gFilt = 3 > 2`), `updatePour`
starts the timer but leaves `startOnce` true — the Pour variant does not
disarm on start. -/
theorem c4_start_disarm_cex :
    (updatePour 3 100 ⟨false, 0, 0, true, 0⟩).running = true ∧
    ¬ (updatePour 3 100 ⟨false, 0, 0, true, 0⟩).startOnce = false := by
  norm_num [updatePour, pourStart, pourTime, timerStartG]

/-- Claim C4 (amended): in both Pour and Shot modes the timer starts
exactly when `!running && startOnce && gFilt > 2.0`; the starting tick
sets `running = true`, `tStart = nowTime` and `time = 0`; the Shot
variant additionally disarms (`startOnce = false`) while the Pour
variant leaves `startOnce` unchanged (true); with `running = false`, no
start happens unless armed with weight above threshold. -/
theorem c4_timer_start (gFilt prevGFilt : ℚ) (nowTime : Nat) (s : TimerSt) :
    (s.running = false → s.startOnce = true → gFilt > 2 →
      (updatePour gFilt nowTime s).running = true ∧
      (updatePour gFilt nowTime s).tStart = nowTime ∧
      (updatePour gFilt nowTime s).time = 0 ∧
      (updatePour gFilt nowTime s).startOnce = true) ∧
    (s.running = false → s.startOnce = true → gFilt > 2 →
      (updateShot gFilt prevGFilt nowTime s).running = true ∧
      (updateShot gFilt prevGFilt nowTime s).tStart = nowTime ∧
      (updateShot gFilt prevGFilt nowTime s).time = 0 ∧
      (updateShot gFilt prevGFilt nowTime s).startOnce = false) ∧
    (s.running = false → ¬(s.startOnce = true ∧ gFilt > 2) →
      (updatePour gFilt nowTime s).running = false ∧
      (updateShot gFilt prevGFilt nowTime s).running = false) := by
  refine ⟨?_, ?_, ?_⟩
  · intro h1 h2 h3
    have hc : s.running = false ∧ s.startOnce = true ∧ gFilt > timerStartG :=
      ⟨h1, h2, by simpa [timerStartG] using h3⟩
    have e1 : pourStart gFilt nowTime s =
        { s with running := true, tStart := nowTime, time := 0 } := by
      simp only [pourStart, if_pos hc]
    simp [updatePour, e1, pourTime, usub_self, h2]
  · intro h1 h2 h3
    have hc : s.running = false ∧ s.startOnce = true ∧ gFilt > timerStartG :=
      ⟨h1, h2, by simpa [timerStartG] using h3⟩
    have e1 : shotStart gFilt nowTime s =
        { s with running := true, tStart := nowTime, time := 0, startOnce := false,
                 flowStopTimer := 0 } := by
      simp only [shotStart, if_pos hc]
    by_cases hd : fabsf (gFilt - prevGFilt) < minFlowG
    · simp [updateShot, e1, shotAutoStop, shotTime, shotRearm, hd, usub_self]
    · simp [updateShot, e1, shotAutoStop, shotTime, shotRearm, hd, usub_self]
  · intro h1 h2
    have hc : ¬(s.running = false ∧ s.startOnce = true ∧ gFilt > timerStartG) := by
      rintro ⟨-, hb, hg⟩
      exact h2 ⟨hb, by simpa [timerStartG] using hg⟩
    have e1p : pourStart gFilt nowTime s = s := by
      simp only [pourStart, if_neg hc]
    have e1s : shotStart gFilt nowTime s = s := by
      simp only [shotStart, if_neg hc]
    constructor
    · simp [updatePour, e1p, pourTime, h1]
    · simp [updateShot, e1s, shotAutoStop, shotTime, shotRearm, h1]
      split_ifs <;> simp [h1]

/-- Witness for C4 (amended): a starting tick at `gFilt = 3`,
`nowTime = 100` for both variants. -/
theorem c4_timer_start_witness :
    ((⟨false, 5, 7, true, 9⟩ : TimerSt).running = false ∧ (3 : ℚ) > 2) ∧
    (updatePour 3 100 ⟨false, 5, 7, true, 9⟩).running = true ∧
    (updatePour 3 100 ⟨false, 5, 7, true, 9⟩).time = 0 ∧
    (updateShot 3 0 100 ⟨false, 5, 7, true, 9⟩).running = true ∧
    (updateShot 3 0 100 ⟨false, 5, 7, true, 9⟩).startOnce = false := by
  refine ⟨⟨rfl, by norm_num⟩, ?_, ?_, ?_, ?_⟩
  · exact ((c4_timer_start 3 0 100 ⟨false, 5, 7, true, 9⟩).1 rfl rfl (by norm_num)).1
  · exact ((c4_timer_start 3 0 100 ⟨false, 5, 7, true, 9⟩).1 rfl rfl (by norm_num)).2.2.1
  · exact ((c4_timer_start 3 0 100 ⟨false, 5, 7, true, 9⟩).2.1 rfl rfl (by norm_num)).1
  · exact ((c4_timer_start 3 0 100 ⟨false, 5, 7, true, 9⟩).2.1 rfl rfl (by norm_num)).2.2.2

/-- Counterexample to claim C6 as stated: an accepted, debounced tare
press (the filter value is indeed reset from 3 to 0) leaves the
hysteresis-held `shown_g` at its old value 5 instead of resetting it to
zero — `tare` cannot reach the `static` local of `hysteresis`. -/
theorem c6_tare_cex :
    (tare 100 false ⟨0, true⟩ ⟨3, 5, ⟨true, 40, 7, false, 42⟩⟩).1.gFilt = 0 ∧
    (tare 100 false ⟨0, true⟩ ⟨3, 5, ⟨true, 40, 7, false, 42⟩⟩).1.shown_g ≠ 0 := by
  norm_num [tare, tareReset, usub, UWORD, debounce]

/-- Claim C6 (amended): a debounced tare press resets `gFilt` to 0 and
resets the timer state to `running = false`, `time = 0`,
`startOnce = true` with the stall timer unset, but leaves the
hysteresis-held `shown_g` unchanged. -/
theorem c6_tare_reset (nowTime : Nat) (state : Bool) (btn : TareBtnSt) (s : ScaleState) :
    btn.lastState = true → state = false → usub nowTime btn.lastZero > debounce →
      (tare nowTime state btn s).1.gFilt = 0 ∧
      (tare nowTime state btn s).1.timer.running = false ∧
      (tare nowTime state btn s).1.timer.time = 0 ∧
      (tare nowTime state btn s).1.timer.startOnce = true ∧
      (tare nowTime state btn s).1.timer.flowStopTimer = 0 ∧
      (tare nowTime state btn s).1.shown_g = s.shown_g := by
  intro h1 h2 h3
  unfold tare
  rw [if_pos ⟨h1, h2, h3⟩]
  simp [tareReset]

/-- Witness for C6 (amended): the reset at `nowTime = 100` on a state
with `gFilt = 3`, `shown_g = 5`. -/
theorem c6_tare_reset_witness :
    (⟨0, true⟩ : TareBtnSt).lastState = true ∧ usub 100 0 > debounce ∧
    (tare 100 false ⟨0, true⟩ ⟨3, 5, ⟨true, 40, 7, false, 42⟩⟩).1.gFilt = 0 ∧
    (tare 100 false ⟨0, true⟩ ⟨3, 5, ⟨true, 40, 7, false, 42⟩⟩).1.timer.running = false := by
  refine ⟨rfl, by norm_num [usub, UWORD, debounce], ?_, ?_⟩
  · exact (c6_tare_reset 100 false ⟨0, true⟩ ⟨3, 5, ⟨true, 40, 7, false, 42⟩⟩ rfl rfl
      (by norm_num [usub, UWORD, debounce])).1
  · exact (c6_tare_reset 100 false ⟨0, true⟩ ⟨3, 5, ⟨true, 40, 7, false, 42⟩⟩ rfl rfl
      (by norm_num [usub, UWORD, debounce])).2.1

/-- Claim C8 fails on the code: when the first stall tick happens at
clock value 0, `flowStopTimer = nowTime` writes the unset sentinel 0
itself, so the stall start is not recorded; with stall ticks at 0 ms,
100 ms and 900 ms the timer is still running at 900 ms although the
stall has persisted 900 ms > 800 ms. -/
theorem c8_stall_sentinel_collision :
    (updateShot 10 10 0 ⟨true, 0, 0, false, 0⟩).flowStopTimer = 0 ∧
    (updateShot 10 10 900 (updateShot 10 10 100 (updateShot 10 10 0
        ⟨true, 0, 0, false, 0⟩))).running = true := by
  norm_num [updateShot, shotStart, shotAutoStop, shotTime, shotRearm,
    fabsf, minFlowG, minFlowT, timerStartG, usub, UWORD]

/-- Claim C9: quantization to the nearest 0.1 g is idempotent. -/
theorem c9_quantize_idempotent (x : ℚ) : quantize (quantize x) = quantize x := by
  unfold quantize
  have h10 : (10 : ℚ) ≠ 0 := by norm_num
  rw [div_mul_cancel₀ ((roundf (x * 10) : ℤ) : ℚ) h10, roundf_intCast]

/-- Claim C10: `convertTime` decomposes an unsigned millisecond count as
minutes `t / 60000`, seconds `(t / 1000) mod 60` and a tenths digit
`(t mod 1000) / 100`; the seconds field is always below 60 and the tenths
field always below 10. -/
theorem c10_convert_time (t : Nat) :
    convertTime t = (t / 60000, t / 1000 % 60, (t % 1000) / 100) ∧
    (convertTime t).2.1 < 60 ∧ (convertTime t).2.2 < 10 := by
  refine ⟨rfl, ?_, ?_⟩ <;> simp only [convertTime] <;> omega

end Scale1
